import Mathlib

/-!
Verification development for the session-management subsystem of the
SharkOfBuy repository (`src/session_manager.py`, class `SessionManager`).

The Python class is embedded shallowly:
* the manager's mutable attributes (`sessions_data`, `clients`, `_auth_data`)
  together with the on-disk JSON document and the set of session files become
  an explicit state record `SM.SMState`;
* every call into the external Telethon client library (connect,
  `is_user_authorized`, `send_code_request`, `sign_in`, `get_me`,
  `send_message`, `get_entity`, join/import requests, `edit_folder`,
  `disconnect`, dialog iteration, plus `os.remove` and the JSON dump) is
  resolved by an environment record passed to the operation, one field per
  external call, so that a single Lean function captures every control path
  of the Python method;
* `await asyncio.sleep` calls and message-send attempts are recorded in an
  event trace (`SM.SendEvent`) so that ordering/retry/backoff properties are
  statable;
* exceptions that the Python code catches become `Option String` outcomes in
  the environment; the one exception path that the Python code does not catch
  (the reconnect `client.connect()` inside `send_message_to_chats`, which has
  no surrounding `try`) is modelled with `Except`.
-/

namespace SM

/-- Result of `client.get_me()`: the authenticated account's profile as used
by `session_manager.py` (fields `id`, `phone`, `username`, `first_name`,
`last_name`). -/
structure Profile where
  id : Nat
  phone : String
  username : Option String
  first_name : Option String
  last_name : Option String
deriving Repr, DecidableEq

/-- One value of the `sessions_data` dict: the credential record written by
`start_phone_auth` / `complete_phone_auth` / `add_session`
(src/session_manager.py lines 89-98, 163-172, 239-248). -/
structure SessionRecord where
  api_id : Nat
  api_hash : String
  session_path : String
  phone : String
  username : Option String
  first_name : Option String
  last_name : Option String
  telegram_user_id : Nat
deriving Repr, DecidableEq

/-- One value of the transient `_auth_data` dict stashed by `start_phone_auth`
(src/session_manager.py lines 106-114); the half-open client handle itself is
represented by the presence of the entry. -/
structure AuthData where
  api_id : Nat
  api_hash : String
  phone : String
  session_path : String
deriving Repr, DecidableEq

/-- The observable state of a `SessionManager` instance plus the durable
artifacts it manages:
`sessions_data` and `auth_data` are the two dicts (as association lists),
`clients` is the set of owner ids holding a live client handle,
`disk` is the content of `sessions/sessions_data.json` (`none` = absent),
`files` is the set of session-file paths present on disk. -/
structure SMState where
  sessions_data : List (String × SessionRecord)
  clients : List String
  auth_data : List (String × AuthData)
  disk : Option (List (String × SessionRecord))
  files : List String
deriving Repr, DecidableEq

/-- Dictionary lookup on an association list (Python `d[k]` / `k in d`). -/
def lookupKey {α : Type} : List (String × α) → String → Option α
  | [], _ => none
  | (k, v) :: rest, key => if k = key then some v else lookupKey rest key

/-- Dictionary key deletion (Python `del d[k]`). -/
def eraseKey {α : Type} (key : String) : List (String × α) → List (String × α)
  | [] => []
  | (k, v) :: rest =>
    if k = key then eraseKey key rest else (k, v) :: eraseKey key rest

/-- Dictionary assignment (Python `d[k] = v`); only `lookupKey`-observable
behaviour matters, so the updated binding is put in front. -/
def upsert {α : Type} (key : String) (v : α) (l : List (String × α)) :
    List (String × α) :=
  (key, v) :: eraseKey key l

/-- Removal of a string from a set-like list (Python `del clients[k]`,
`os.remove(path)`); paths and owner ids are unique, so removing every
occurrence is the set semantics. -/
def removeStr (x : String) : List String → List String
  | [] => []
  | y :: rest => if y = x then removeStr x rest else y :: removeStr x rest

/-- Python `a or b` on an optional string (`me.username or me.phone`):
`None` and the empty string are falsy. -/
def orElseStr (a : Option String) (b : String) : String :=
  match a with
  | some s => if s = "" then b else s
  | none => b

/-- `os.path.join(self.sessions_dir, f"user_{user_id}.session")` with the
default `sessions_dir = "sessions"`. -/
def sessionPath (uid : String) : String := s!"sessions/user_{uid}.session"

/-- The credential record built from `get_me()` output; shared by the three
sites that write `sessions_data[uid]`. -/
def mkRecord (api_id : Nat) (api_hash : String) (session_path : String)
    (me : Profile) : SessionRecord :=
  { api_id := api_id, api_hash := api_hash, session_path := session_path,
    phone := me.phone, username := me.username, first_name := me.first_name,
    last_name := me.last_name, telegram_user_id := me.id }

/-- `SessionManager.save_sessions_data` (src/session_manager.py lines 44-51):
dumps `sessions_data` to the JSON file. The whole body is wrapped in
`try/except` with only a log call in the handler, so a disk failure
(`diskOk = false`) leaves the file as it was and surfaces nothing to the
caller. -/
def save_sessions_data (st : SMState) (diskOk : Bool) : SMState :=
  if diskOk then { st with disk := some st.sessions_data } else st

/-- Environment for `start_phone_auth`: outcomes of the external calls it
makes, in order (connect, `is_user_authorized`, `get_me`,
`send_code_request`, JSON dump). -/
structure StartEnv where
  connectErr : Option String
  isAuthorized : Bool
  me : Profile
  sendCodeErr : Option String
  diskOk : Bool
deriving Repr, DecidableEq

/-- Observable result of `start_phone_auth`: the returned
`(success, message, client)` triple (`hasClient` = the third component is not
`None`) plus whether `send_code_request` was invoked. -/
structure StartResult where
  success : Bool
  message : String
  hasClient : Bool
  codeRequested : Bool
deriving Repr, DecidableEq

/-- `SessionManager.start_phone_auth` (src/session_manager.py lines 53-120).
Any pre-existing client handle for the owner is disconnected (errors
swallowed) and dropped; then a fresh client is built on the per-owner session
file and connected.  If the remote side reports the session already
authorized, the credential record is stored and saved and the call returns
success without requesting a code; otherwise a code is requested and the
pending-login data is stashed in `_auth_data`.  Exceptions from connect or
the code request are caught by the outer handler which returns
`(False, "Ошибка: ...", None)`. -/
def start_phone_auth (st : SMState) (uid : String) (api_id : Nat)
    (api_hash : String) (phone : String) (env : StartEnv) :
    StartResult × SMState :=
  let path := sessionPath uid
  let st0 := { st with clients := removeStr uid st.clients }
  match env.connectErr with
  | some e =>
    ({ success := false, message := s!"Ошибка: {e}", hasClient := false,
       codeRequested := false }, st0)
  | none =>
    if env.isAuthorized then
      let r := mkRecord api_id api_hash path env.me
      let u := orElseStr env.me.username env.me.phone
      let st1 := { st0 with
        clients := uid :: removeStr uid st0.clients
        sessions_data := upsert uid r st0.sessions_data }
      let st2 := save_sessions_data st1 env.diskOk
      ({ success := true, message := s!"✅ Уже авторизован: @{u}",
         hasClient := true, codeRequested := false }, st2)
    else
      match env.sendCodeErr with
      | some e =>
        ({ success := false, message := s!"Ошибка: {e}", hasClient := false,
           codeRequested := true }, st0)
      | none =>
        let ad : AuthData := { api_id := api_id, api_hash := api_hash,
                               phone := phone, session_path := path }
        ({ success := true, message := "Код отправлен в Telegram",
           hasClient := true, codeRequested := true },
         { st0 with auth_data := upsert uid ad st0.auth_data })

/-- Outcome of `client.sign_in(phone, code)` as discriminated by the
`except` clauses of `complete_phone_auth`. -/
inductive SignInRes where
  | ok
  | needPassword
  | invalidCode
  | otherErr (msg : String)
deriving Repr, DecidableEq

/-- Environment for `complete_phone_auth`: the sign-in outcome, the outcome
of the password sign-in (consulted only on the second-factor path), the
profile returned by `get_me`, and whether the JSON dump succeeds. -/
structure CompleteEnv where
  signIn : SignInRes
  pwErr : Option String
  me : Profile
  diskOk : Bool
deriving Repr, DecidableEq

/-- Success tail of `complete_phone_auth` (src/session_manager.py lines
159-181): store the credential record, save to disk, cache the client,
delete the pending-login entry, return the confirmation message. -/
def completeSuccess (st : SMState) (uid : String) (ad : AuthData)
    (env : CompleteEnv) : (Bool × String) × SMState :=
  let r := mkRecord ad.api_id ad.api_hash ad.session_path env.me
  let u := orElseStr env.me.username env.me.phone
  let i := env.me.id
  let st1 := { st with sessions_data := upsert uid r st.sessions_data }
  let st2 := save_sessions_data st1 env.diskOk
  let st3 := { st2 with
    clients := uid :: removeStr uid st2.clients
    auth_data := eraseKey uid st2.auth_data }
  ((true, s!"✅ Сессия успешно добавлена!\n\n👤 Аккаунт: @{u}\n🆔 ID: {i}"),
   st3)

/-- `SessionManager.complete_phone_auth` (src/session_manager.py lines
122-185).  Looks up the pending login; on `PhoneCodeInvalidError`, on a
generic sign-in error, on a missing password for the second factor, and on a
failed password sign-in it returns a failure message and leaves the state —
in particular the `_auth_data` entry — untouched; on success it runs
`completeSuccess`. -/
def complete_phone_auth (st : SMState) (uid : String)
    (password : Option String) (env : CompleteEnv) :
    (Bool × String) × SMState :=
  match lookupKey st.auth_data uid with
  | none => ((false, "Сессия авторизации не найдена. Начните заново."), st)
  | some ad =>
    match env.signIn with
    | SignInRes.invalidCode => ((false, "Неверный код. Попробуйте снова."), st)
    | SignInRes.otherErr m => ((false, s!"Ошибка входа: {m}"), st)
    | SignInRes.needPassword =>
      match password with
      | none => ((false, "NEED_PASSWORD"), st)
      | some _ =>
        match env.pwErr with
        | some m => ((false, s!"Ошибка входа с паролем: {m}"), st)
        | none => completeSuccess st uid ad env
    | SignInRes.ok => completeSuccess st uid ad env

/-- Environment for `remove_session`: outcome of `client.disconnect()`
(uncaught inside the method body, so an error aborts it through the outer
handler), of `os.remove` (its error is swallowed by `except: pass`), and of
the JSON dump. -/
structure RemoveEnv where
  disconnectErr : Option String
  removeFileOk : Bool
  diskOk : Bool
deriving Repr, DecidableEq

/-- Lines 272-284 of `remove_session`: delete the session file (if the path
is truthy and the file exists; removal errors swallowed), delete the
credential record, save. -/
def removeCore (st : SMState) (uid : String) (env : RemoveEnv) :
    (Bool × String) × SMState :=
  match lookupKey st.sessions_data uid with
  | none => ((true, "✅ Сессия удалена"), st)
  | some r =>
    let files1 :=
      if r.session_path ≠ "" ∧ r.session_path ∈ st.files ∧ env.removeFileOk
      then removeStr r.session_path st.files else st.files
    let st1 := { st with
      files := files1
      sessions_data := eraseKey uid st.sessions_data }
    ((true, "✅ Сессия удалена"), save_sessions_data st1 env.diskOk)

/-- `SessionManager.remove_session` (src/session_manager.py lines 262-287).
If a live client exists it is disconnected first; a disconnect exception is
caught only by the outer handler, which returns a failure with the state not
yet mutated. -/
def remove_session (st : SMState) (uid : String) (env : RemoveEnv) :
    (Bool × String) × SMState :=
  if uid ∈ st.clients then
    match env.disconnectErr with
    | some e => ((false, s!"Ошибка: {e}"), st)
    | none => removeCore { st with clients := removeStr uid st.clients } uid env
  else removeCore st uid env

/-- One dialog entry as assembled by `get_chats`
(src/session_manager.py lines 341-350). -/
structure ChatInfo where
  id : Int
  title : String
  kind : String
  username : Option String
  unread_count : Nat
  is_muted : Bool
deriving Repr, DecidableEq

/-- Environment for `get_chats`: outcome of the reconnect `connect()`, of
`is_user_authorized()`, and of the dialog iteration (which may fail with an
exception caught by the outer handler). -/
structure PoolEnv where
  connectErr : Option String
  isAuthorized : Bool
  dialogsRes : Except String (List ChatInfo)
deriving Repr

/-- `SessionManager.get_chats` (src/session_manager.py lines 312-356).
The third output component records whether a new `TelegramClient` was
constructed during the call.  With no cached client and no credential record
the call fails immediately, before any client construction.  The whole body
is inside `try/except`, so every exception surfaces as
`(False, "Ошибка: ...", [])`. -/
def get_chats (st : SMState) (uid : String) (env : PoolEnv) :
    (Bool × String × List ChatInfo) × SMState × Bool :=
  if uid ∈ st.clients then
    match env.dialogsRes with
    | Except.error e => ((false, s!"Ошибка: {e}", []), st, false)
    | Except.ok ds =>
      let n := ds.length
      ((true, s!"Найдено {n} чатов", ds), st, false)
  else
    match lookupKey st.sessions_data uid with
    | none =>
      ((false, "Сессия не найдена. Сначала добавьте сессию через /sessions",
        []), st, false)
    | some _ =>
      match env.connectErr with
      | some e => ((false, s!"Ошибка: {e}", []), st, true)
      | none =>
        if env.isAuthorized then
          let st1 := { st with clients := uid :: st.clients }
          match env.dialogsRes with
          | Except.error e => ((false, s!"Ошибка: {e}", []), st1, true)
          | Except.ok ds =>
            let n := ds.length
            ((true, s!"Найдено {n} чатов", ds), st1, true)
        else ((false, "Сессия не авторизована", []), st, true)

/-- Per-target behaviour of `client.send_message` inside the broadcast loop:
success, a `FloodWaitError` carrying `seconds` (after which the single retry
either succeeds, `retryErr = none`, or fails with `retryErr = some msg`), or
any other exception. -/
inductive SendOutcome where
  | ok
  | flood (seconds : Nat) (retryErr : Option String)
  | err (msg : String)
deriving Repr, DecidableEq

/-- Trace of the observable effects of the broadcast loop: initial send
attempts, retry attempts after a flood wait, the inter-send delay sleep and
the flood-mandated sleep. -/
inductive SendEvent where
  | attempt (chat : Int)
  | retryAttempt (chat : Int)
  | sleepDelay (d : Nat)
  | sleepFlood (n : Nat)
deriving Repr, DecidableEq

/-- The per-target loop of `send_message_to_chats`
(src/session_manager.py lines 400-419), with each target paired with the
behaviour of the remote service for it.  Returns
`(success_count, failed_count, errors, trace)`.  On `ok` the message is sent
and the loop sleeps `delay`; on a flood wait the flood error string is
recorded, the loop sleeps the provider-given duration and retries exactly
once, counting the target as a success or failure by the retry's outcome
(with no delay sleep afterwards); on any other error the target is a
failure.  The loop never aborts. -/
def sendLoop : List (Int × SendOutcome) → Nat →
    Nat × Nat × List String × List SendEvent
  | [], _ => (0, 0, [], [])
  | (c, o) :: rest, d =>
    let r := sendLoop rest d
    match o with
    | SendOutcome.ok =>
      (r.1 + 1, r.2.1, r.2.2.1,
       SendEvent.attempt c :: SendEvent.sleepDelay d :: r.2.2.2)
    | SendOutcome.flood n none =>
      (r.1 + 1, r.2.1, s!"Chat {c}: FloodWait {n} секунд" :: r.2.2.1,
       SendEvent.attempt c :: SendEvent.sleepFlood n ::
         SendEvent.retryAttempt c :: r.2.2.2)
    | SendOutcome.flood n (some m) =>
      (r.1, r.2.1 + 1,
       s!"Chat {c}: FloodWait {n} секунд" :: s!"Chat {c}: {m}" :: r.2.2.1,
       SendEvent.attempt c :: SendEvent.sleepFlood n ::
         SendEvent.retryAttempt c :: r.2.2.2)
    | SendOutcome.err m =>
      (r.1, r.2.1 + 1, s!"Chat {c}: {m}" :: r.2.2.1,
       SendEvent.attempt c :: r.2.2.2)

/-- The initial (non-retry) send attempts of a trace, in order. -/
def firstAttempts : List SendEvent → List Int
  | [] => []
  | SendEvent.attempt c :: rest => c :: firstAttempts rest
  | _ :: rest => firstAttempts rest

/-- Environment for the reconnect preamble shared by the batch operations:
outcome of `client.connect()` and of `is_user_authorized()`. -/
structure ConnEnv where
  connectErr : Option String
  isAuthorized : Bool
deriving Repr, DecidableEq

/-- `SessionManager.send_message_to_chats` (src/session_manager.py lines
358-420).  With no cached client and no credential record it returns
`(0, len(chat_ids), [not-found message])` without constructing a client;
with a record it constructs a client and connects — this `connect()` has no
surrounding `try`, so a connect exception propagates out of the coroutine,
modelled as `Except.error`; an unauthorized session yields
`(0, len(chat_ids), [message])`.  Otherwise the per-target loop runs.  The
`Bool` component records whether a new client was constructed. -/
def send_message_to_chats (st : SMState) (uid : String)
    (targets : List (Int × SendOutcome)) (delay : Nat) (env : ConnEnv) :
    Except String
      ((Nat × Nat × List String) × SMState × Bool × List SendEvent) :=
  if uid ∈ st.clients then
    let r := sendLoop targets delay
    Except.ok ((r.1, r.2.1, r.2.2.1), st, false, r.2.2.2)
  else
    match lookupKey st.sessions_data uid with
    | none =>
      Except.ok
        ((0, targets.length,
          ["Сессия не найдена. Сначала добавьте сессию через /sessions"]),
         st, false, [])
    | some _ =>
      match env.connectErr with
      | some e => Except.error e
      | none =>
        if env.isAuthorized then
          let st1 := { st with clients := uid :: st.clients }
          let r := sendLoop targets delay
          Except.ok ((r.1, r.2.1, r.2.2.1), st1, true, r.2.2.2)
        else
          Except.ok ((0, targets.length, ["Сессия не авторизована"]), st,
                     true, [])

/-- Behaviour of the remote service for one chat reference inside the join
loop of `join_chats_from_file` (src/session_manager.py lines 521-545):
either the `get_entity` + join path succeeds, yielding the resolved entity
id, or it raises (`err`), in which case — only for references starting with
`+` or `joinchat` — the invite-import fallback is attempted and either
succeeds (`inviteErr = none`) or raises. -/
inductive JoinEnv where
  | primaryOk (entityId : Int)
  | primaryFail (err : String) (inviteErr : Option String)
deriving Repr, DecidableEq

/-- Executable character-list core of Python `str.startswith`. -/
def charsStartWith : List Char → List Char → Bool
  | _, [] => true
  | [], _ :: _ => false
  | c :: cs, p :: ps => if c = p then charsStartWith cs ps else false

/-- Python `s.startswith(p)` (kernel-reducible, unlike the library
`String.startsWith`). -/
def strStartsWith (s p : String) : Bool := charsStartWith s.data p.data

/-- The per-reference loop of `join_chats_from_file`
(src/session_manager.py lines 521-545).  Returns
`(success_count, failed_count, errors, joined_chat_ids)`.  A reference that
joins through the primary path has its resolved entity id recorded in
`joined_chat_ids`; a reference that joins through the invite-import fallback
increments `success_count` but records no id (the source never appends to
`joined_chat_ids` on that path).  The error string always carries the
original exception text. -/
def joinLoop : List (String × JoinEnv) →
    Nat × Nat × List String × List Int
  | [] => (0, 0, [], [])
  | (u, e) :: rest =>
    let r := joinLoop rest
    match e with
    | JoinEnv.primaryOk cid => (r.1 + 1, r.2.1, r.2.2.1, cid :: r.2.2.2)
    | JoinEnv.primaryFail msg invErr =>
      if strStartsWith u "+" || strStartsWith u "joinchat" then
        match invErr with
        | none => (r.1 + 1, r.2.1, r.2.2.1, r.2.2.2)
        | some _ => (r.1, r.2.1 + 1, s!"@{u}: {msg}" :: r.2.2.1, r.2.2.2)
      else (r.1, r.2.1 + 1, s!"@{u}: {msg}" :: r.2.2.1, r.2.2.2)

/-- The per-chat loop of `archive_chats` (src/session_manager.py lines
452-462), each chat id paired with the outcome of
`get_entity` + `edit_folder` (`none` = archived, `some msg` = exception). -/
def archiveLoop : List (Int × Option String) → Nat × Nat × List String
  | [] => (0, 0, [])
  | (cid, o) :: rest =>
    let r := archiveLoop rest
    match o with
    | none => (r.1 + 1, r.2.1, r.2.2)
    | some m => (r.1, r.2.1 + 1, s!"Chat {cid}: {m}" :: r.2.2)

/-- The join-then-archive core of `join_chats_from_file`
(src/session_manager.py lines 515-552), after the connection is established
and the file parsed into references: run the join loop, then — only if
`joined_chat_ids` is nonempty — archive each recorded id via `archive_chats`
(whose environment is `archEnv`), appending the archive errors to the join
errors.  The returned list is `joined_chat_ids`, i.e. exactly the chats for
which the archive operation is attempted. -/
def join_chats_core (refs : List (String × JoinEnv))
    (archEnv : Int → Option String) :
    (Nat × Nat × List String) × List Int :=
  let r := joinLoop refs
  let ids := r.2.2.2
  if ids = [] then ((r.1, r.2.1, r.2.2.1), ids)
  else
    let a := archiveLoop (ids.map fun i => (i, archEnv i))
    ((r.1, r.2.1, r.2.2.1 ++ a.2.2), ids)

/-- The entity ids of the references that join through the primary
(`get_entity` + join) path, in input order. -/
def primaryIds : List (String × JoinEnv) → List Int
  | [] => []
  | (_, JoinEnv.primaryOk cid) :: rest => cid :: primaryIds rest
  | (_, JoinEnv.primaryFail _ _) :: rest => primaryIds rest

/-- Every owner id holding a live client handle has a credential record.
This holds in every reachable state of the manager (see the preservation
lemmas below) and in the initial state, where `clients` is empty. -/
def ClientsSubset (st : SMState) : Prop :=
  ∀ u, u ∈ st.clients → (lookupKey st.sessions_data u).isSome = true

/-- The state of a fresh manager with no prior data. -/
def emptyState : SMState :=
  { sessions_data := [], clients := [], auth_data := [], disk := none,
    files := [] }

/-- Concrete profile used by the closed instances below. -/
def meW : Profile :=
  { id := 5, phone := "555", username := some "u", first_name := none,
    last_name := none }

/-- Concrete pending-login entry used by the closed instances below. -/
def adW : AuthData :=
  { api_id := 7, api_hash := "h", phone := "+7",
    session_path := "sessions/user_1.session" }

/-- A state holding one pending login for owner `"1"` and an empty saved
document on disk. -/
def stPend : SMState :=
  { sessions_data := [], clients := [], auth_data := [("1", adW)],
    disk := some [], files := [] }

/-- A state with a live client and a credential record for owner `"1"` whose
session file is present on disk. -/
def stLive : SMState :=
  { sessions_data := [("1", mkRecord 7 "h" (sessionPath "1") meW)],
    clients := ["1"], auth_data := [], disk := none,
    files := ["sessions/user_1.session"] }

/-- Concrete broadcast target list for the `[A, B, C]` scenario: B fails
permanently, A and C succeed. -/
def targetsW : List (Int × SendOutcome) :=
  [(1, SendOutcome.ok), (2, SendOutcome.err "boom"), (3, SendOutcome.ok)]

/-- Concrete reference list for the bulk-join scenario of the spec: three
resolvable references and one unresolvable one. -/
def refsSpec : List (String × JoinEnv) :=
  [("alpha", JoinEnv.primaryOk 1), ("bad", JoinEnv.primaryFail "not found" none),
   ("beta", JoinEnv.primaryOk 2), ("gamma", JoinEnv.primaryOk 3)]

/-- Concrete reference list with a single reference that joins via the
invite-import fallback. -/
def refsInvite : List (String × JoinEnv) :=
  [("+abc", JoinEnv.primaryFail "no entity" none)]

/-- Concrete `complete_phone_auth` environment: code rejected by the
provider. -/
def envInvalidW : CompleteEnv :=
  { signIn := SignInRes.invalidCode, pwErr := none, me := meW, diskOk := true }

/-- Concrete `complete_phone_auth` environment: code accepted, disk fine. -/
def envOkW : CompleteEnv :=
  { signIn := SignInRes.ok, pwErr := none, me := meW, diskOk := true }

/-- Concrete `complete_phone_auth` environment: code accepted but the JSON
dump fails. -/
def envOkBadDiskW : CompleteEnv :=
  { signIn := SignInRes.ok, pwErr := none, me := meW, diskOk := false }

/-- Concrete `start_phone_auth` environment: connect succeeds and the remote
side reports the session already authorized. -/
def startEnvW : StartEnv :=
  { connectErr := none, isAuthorized := true, me := meW, sendCodeErr := none,
    diskOk := true }

/-- Concrete `remove_session` environment: every external step succeeds. -/
def remEnvW : RemoveEnv :=
  { disconnectErr := none, removeFileOk := true, diskOk := true }

/-- Concrete `get_chats` environment: connect and authorization succeed, an
empty dialog list. -/
def poolEnvW : PoolEnv :=
  { connectErr := none, isAuthorized := true, dialogsRes := Except.ok [] }

/-- Concrete reconnect environment for the batch operations. -/
def connEnvW : ConnEnv := { connectErr := none, isAuthorized := true }

/-! Helper lemmas about the dictionary/set operations. -/

theorem lookupKey_upsert_self {α : Type} (k : String) (v : α)
    (l : List (String × α)) : lookupKey (upsert k v l) k = some v := by
  simp [upsert, lookupKey]

theorem lookupKey_eraseKey_self {α : Type} (k : String)
    (l : List (String × α)) : lookupKey (eraseKey k l) k = none := by
  induction l with
  | nil => rfl
  | cons p rest ih =>
    obtain ⟨k1, v1⟩ := p
    by_cases h : k1 = k
    · simp [eraseKey, h, ih]
    · simp [eraseKey, h, lookupKey, ih]

theorem lookupKey_eraseKey_ne {α : Type} (k k2 : String)
    (l : List (String × α)) (h : k ≠ k2) :
    lookupKey (eraseKey k l) k2 = lookupKey l k2 := by
  induction l with
  | nil => rfl
  | cons p rest ih =>
    obtain ⟨k1, v1⟩ := p
    by_cases h1 : k1 = k
    · subst h1
      simp [eraseKey, lookupKey, h, ih]
    · simp [eraseKey, h1, lookupKey, ih]

theorem lookupKey_upsert_ne {α : Type} (k k2 : String) (v : α)
    (l : List (String × α)) (h : k ≠ k2) :
    lookupKey (upsert k v l) k2 = lookupKey l k2 := by
  simp [upsert, lookupKey, h, lookupKey_eraseKey_ne k k2 l h]

theorem eraseKey_idem {α : Type} (k : String) (l : List (String × α)) :
    eraseKey k (eraseKey k l) = eraseKey k l := by
  induction l with
  | nil => rfl
  | cons p rest ih =>
    obtain ⟨k1, v1⟩ := p
    by_cases h : k1 = k
    · simp [eraseKey, h, ih]
    · simp [eraseKey, h, ih]

theorem upsert_upsert {α : Type} (k : String) (v : α)
    (l : List (String × α)) : upsert k v (upsert k v l) = upsert k v l := by
  simp [upsert, eraseKey, eraseKey_idem]

theorem mem_removeStr (a x : String) (l : List String) :
    a ∈ removeStr x l ↔ a ∈ l ∧ a ≠ x := by
  induction l with
  | nil => simp [removeStr]
  | cons y rest ih =>
    by_cases h : y = x
    · subst h
      have he : removeStr y (y :: rest) = removeStr y rest := by
        simp [removeStr]
      rw [he, ih, List.mem_cons]
      constructor
      · rintro ⟨ha, hne⟩
        exact ⟨Or.inr ha, hne⟩
      · rintro ⟨rfl | ha, hne⟩
        · exact absurd rfl hne
        · exact ⟨ha, hne⟩
    · have he : removeStr x (y :: rest) = y :: removeStr x rest := by
        simp [removeStr, h]
      rw [he, List.mem_cons, List.mem_cons, ih]
      constructor
      · rintro (rfl | ⟨ha, hne⟩)
        · exact ⟨Or.inl rfl, h⟩
        · exact ⟨Or.inr ha, hne⟩
      · rintro ⟨rfl | ha, hne⟩
        · exact Or.inl rfl
        · exact Or.inr ⟨ha, hne⟩

theorem not_mem_removeStr_self (x : String) (l : List String) :
    x ∉ removeStr x l := by
  intro h
  exact ((mem_removeStr x x l).mp h).2 rfl

theorem removeStr_idem (x : String) (l : List String) :
    removeStr x (removeStr x l) = removeStr x l := by
  induction l with
  | nil => rfl
  | cons y rest ih =>
    by_cases h : y = x
    · simp [removeStr, h, ih]
    · simp [removeStr, h, ih]

theorem save_sessions_data_sessions (st : SMState) (b : Bool) :
    (save_sessions_data st b).sessions_data = st.sessions_data := by
  cases b <;> rfl

theorem save_sessions_data_clients (st : SMState) (b : Bool) :
    (save_sessions_data st b).clients = st.clients := by
  cases b <;> rfl

theorem save_sessions_data_files (st : SMState) (b : Bool) :
    (save_sessions_data st b).files = st.files := by
  cases b <;> rfl

theorem save_sessions_data_auth (st : SMState) (b : Bool) :
    (save_sessions_data st b).auth_data = st.auth_data := by
  cases b <;> rfl

/-! Helper lemmas about the broadcast loop. -/

theorem sendLoop_sum (t : List (Int × SendOutcome)) (d : Nat) :
    (sendLoop t d).1 + (sendLoop t d).2.1 = t.length := by
  induction t with
  | nil => rfl
  | cons p rest ih =>
    obtain ⟨c, o⟩ := p
    match o with
    | SendOutcome.ok => simp [sendLoop]; omega
    | SendOutcome.flood n none => simp [sendLoop]; omega
    | SendOutcome.flood n (some m) => simp [sendLoop]; omega
    | SendOutcome.err m => simp [sendLoop]; omega

theorem firstAttempts_sendLoop (t : List (Int × SendOutcome)) (d : Nat) :
    firstAttempts (sendLoop t d).2.2.2 = t.map Prod.fst := by
  induction t with
  | nil => rfl
  | cons p rest ih =>
    obtain ⟨c, o⟩ := p
    match o with
    | SendOutcome.ok => simp [sendLoop, firstAttempts, ih]
    | SendOutcome.flood n none => simp [sendLoop, firstAttempts, ih]
    | SendOutcome.flood n (some m) => simp [sendLoop, firstAttempts, ih]
    | SendOutcome.err m => simp [sendLoop, firstAttempts, ih]

/-! Helper lemmas about the bulk-join loop. -/

theorem joinLoop_ids (refs : List (String × JoinEnv)) :
    (joinLoop refs).2.2.2 = primaryIds refs := by
  induction refs with
  | nil => rfl
  | cons p rest ih =>
    obtain ⟨u, e⟩ := p
    match e with
    | JoinEnv.primaryOk cid => simp [joinLoop, primaryIds, ih]
    | JoinEnv.primaryFail msg invErr =>
      cases h : (strStartsWith u "+" || strStartsWith u "joinchat") with
      | true =>
        cases invErr with
        | none => simp [joinLoop, primaryIds, h, ih]
        | some m => simp [joinLoop, primaryIds, h, ih]
      | false => simp [joinLoop, primaryIds, h, ih]

/-! Preservation of the `ClientsSubset` invariant (a live client handle is
only ever cached together with a credential record) by the modelled
operations, justifying its use as a hypothesis about reachable states. -/

theorem clientsSubset_empty : ClientsSubset emptyState := by
  intro u hu
  simp [emptyState] at hu

theorem clientsSubset_insertCase (c : List String)
    (d : List (String × SessionRecord)) (uid : String) (r : SessionRecord)
    (hs : ∀ u, u ∈ c → (lookupKey d u).isSome = true) :
    ∀ u, u ∈ uid :: removeStr uid c →
      (lookupKey (upsert uid r d) u).isSome = true := by
  intro u hu
  rcases List.mem_cons.mp hu with rfl | hu'
  · simp [lookupKey_upsert_self]
  · have h2 := (mem_removeStr u uid c).mp hu'
    rw [lookupKey_upsert_ne uid u r d (fun h => h2.2 h.symm)]
    exact hs u h2.1

theorem clientsSubset_start (st : SMState) (uid : String) (api_id : Nat)
    (api_hash phone : String) (env : StartEnv) (hs : ClientsSubset st) :
    ClientsSubset (start_phone_auth st uid api_id api_hash phone env).2 := by
  intro u hu
  unfold start_phone_auth at hu ⊢
  cases hce : env.connectErr with
  | some e =>
    simp [hce] at hu ⊢
    exact hs u ((mem_removeStr u uid st.clients).mp hu).1
  | none =>
    cases hia : env.isAuthorized with
    | true =>
      simp [hce, hia, save_sessions_data_clients,
            save_sessions_data_sessions, removeStr_idem] at hu ⊢
      exact clientsSubset_insertCase st.clients st.sessions_data uid _ hs u
        (List.mem_cons.mpr hu)
    | false =>
      cases hsc : env.sendCodeErr with
      | some e =>
        simp [hce, hia, hsc] at hu ⊢
        exact hs u ((mem_removeStr u uid st.clients).mp hu).1
      | none =>
        simp [hce, hia, hsc] at hu ⊢
        exact hs u ((mem_removeStr u uid st.clients).mp hu).1

theorem clientsSubset_completeSuccess (st : SMState) (uid : String)
    (ad : AuthData) (env : CompleteEnv) (hs : ClientsSubset st) :
    ClientsSubset (completeSuccess st uid ad env).2 := by
  intro u hu
  simp [completeSuccess, save_sessions_data_clients,
        save_sessions_data_sessions] at hu ⊢
  exact clientsSubset_insertCase st.clients st.sessions_data uid _ hs u
    (List.mem_cons.mpr hu)

theorem clientsSubset_complete (st : SMState) (uid : String)
    (password : Option String) (env : CompleteEnv) (hs : ClientsSubset st) :
    ClientsSubset (complete_phone_auth st uid password env).2 := by
  unfold complete_phone_auth
  cases hl : lookupKey st.auth_data uid with
  | none => simpa [hl] using hs
  | some ad =>
    cases hsi : env.signIn with
    | invalidCode => simpa [hl, hsi] using hs
    | otherErr m => simpa [hl, hsi] using hs
    | needPassword =>
      cases password with
      | none => simpa [hl, hsi] using hs
      | some pw =>
        cases hpe : env.pwErr with
        | some m => simpa [hl, hsi, hpe] using hs
        | none =>
          simpa [hl, hsi, hpe] using
            clientsSubset_completeSuccess st uid ad env hs
    | ok =>
      simpa [hl, hsi] using clientsSubset_completeSuccess st uid ad env hs

theorem clientsSubset_removeCore (st : SMState) (uid : String)
    (env : RemoveEnv) (hnc : uid ∉ st.clients) (hs : ClientsSubset st) :
    ClientsSubset (removeCore st uid env).2 := by
  intro u hu
  unfold removeCore at hu ⊢
  cases hl : lookupKey st.sessions_data uid with
  | none =>
    simp [hl] at hu ⊢
    exact hs u hu
  | some r =>
    simp [hl, save_sessions_data_clients, save_sessions_data_sessions]
      at hu ⊢
    have hne : uid ≠ u := by
      intro h
      subst h
      exact hnc hu
    rw [lookupKey_eraseKey_ne uid u st.sessions_data hne]
    exact hs u hu

theorem clientsSubset_remove (st : SMState) (uid : String)
    (env : RemoveEnv) (hs : ClientsSubset st) :
    ClientsSubset (remove_session st uid env).2 := by
  unfold remove_session
  by_cases hm : uid ∈ st.clients
  · simp only [hm, if_pos]
    cases hde : env.disconnectErr with
    | some e => simpa using hs
    | none =>
      simp only
      refine clientsSubset_removeCore _ uid env
        (not_mem_removeStr_self uid st.clients) ?_
      intro u hu
      simp at hu
      exact hs u ((mem_removeStr u uid st.clients).mp hu).1
  · simp only [hm, if_neg, if_false]
    exact clientsSubset_removeCore st uid env hm hs

theorem clientsSubset_get_chats (st : SMState) (uid : String)
    (env : PoolEnv) (hs : ClientsSubset st) :
    ClientsSubset (get_chats st uid env).2.1 := by
  intro u hu
  unfold get_chats at hu ⊢
  by_cases hm : uid ∈ st.clients
  · cases hd : env.dialogsRes with
    | error e => simp [hm, hd] at hu ⊢; exact hs u hu
    | ok ds => simp [hm, hd] at hu ⊢; exact hs u hu
  · cases hl : lookupKey st.sessions_data uid with
    | none => simp [hm, hl] at hu ⊢; exact hs u hu
    | some r =>
      cases hce : env.connectErr with
      | some e => simp [hm, hl, hce] at hu ⊢; exact hs u hu
      | none =>
        cases hia : env.isAuthorized with
        | true =>
          cases hd : env.dialogsRes with
          | error e =>
            simp [hm, hl, hce, hia, hd] at hu ⊢
            rcases hu with rfl | hu'
            · simp [hl]
            · exact hs u hu'
          | ok ds =>
            simp [hm, hl, hce, hia, hd] at hu ⊢
            rcases hu with rfl | hu'
            · simp [hl]
            · exact hs u hu'
        | false =>
          simp [hm, hl, hce, hia] at hu ⊢
          exact hs u hu

theorem clientsSubset_send (st : SMState) (uid : String)
    (targets : List (Int × SendOutcome)) (delay : Nat) (env : ConnEnv)
    (hs : ClientsSubset st) (res : (Nat × Nat × List String) × SMState ×
      Bool × List SendEvent)
    (h : send_message_to_chats st uid targets delay env = Except.ok res) :
    ClientsSubset res.2.1 := by
  unfold send_message_to_chats at h
  by_cases hm : uid ∈ st.clients
  · simp [hm] at h
    rw [← h]
    exact hs
  · cases hl : lookupKey st.sessions_data uid with
    | none =>
      simp [hm, hl] at h
      rw [← h]
      exact hs
    | some r =>
      cases hce : env.connectErr with
      | some e => simp [hm, hl, hce] at h
      | none =>
        cases hia : env.isAuthorized with
        | true =>
          simp [hm, hl, hce, hia] at h
          rw [← h]
          intro u hu
          simp at hu
          rcases hu with rfl | hu'
          · simp [hl]
          · exact hs u hu'
        | false =>
          simp [hm, hl, hce, hia] at h
          rw [← h]
          exact hs

theorem joinLoop_sum (refs : List (String × JoinEnv)) :
    (joinLoop refs).1 + (joinLoop refs).2.1 = refs.length := by
  induction refs with
  | nil => rfl
  | cons p rest ih =>
    obtain ⟨u, e⟩ := p
    match e with
    | JoinEnv.primaryOk cid => simp [joinLoop]; omega
    | JoinEnv.primaryFail msg invErr =>
      cases h : (strStartsWith u "+" || strStartsWith u "joinchat") with
      | true =>
        cases invErr with
        | none => simp [joinLoop, h]; omega
        | some m => simp [joinLoop, h]; omega
      | false => simp [joinLoop, h]; omega

theorem join_chats_core_ids (refs : List (String × JoinEnv))
    (archEnv : Int → Option String) :
    (join_chats_core refs archEnv).2 = (joinLoop refs).2.2.2 := by
  by_cases hid : (joinLoop refs).2.2.2 = [] <;> simp [join_chats_core, hid]

theorem join_chats_core_counts (refs : List (String × JoinEnv))
    (archEnv : Int → Option String) :
    (join_chats_core refs archEnv).1.1 = (joinLoop refs).1 ∧
    (join_chats_core refs archEnv).1.2.1 = (joinLoop refs).2.1 := by
  by_cases hid : (joinLoop refs).2.2.2 = [] <;> simp [join_chats_core, hid]

/-! Claim theorems. -/

/-- Claim C1, counterexample: the claim says a disk I/O error while saving
the credential store makes the mutating operation report failure (the error
propagates).  It is false: `save_sessions_data` swallows the error, so
`complete_phone_auth` still reports success even when the JSON document was
not written. -/
theorem C1_counterexample :
    ¬ (∀ (st : SMState) (uid : String) (password : Option String)
        (env : CompleteEnv), env.diskOk = false →
        ((complete_phone_auth st uid password env).1).1 = false) := by
  intro h
  exact absurd (h stPend "1" none envOkBadDiskW rfl) (by decide)

/-- Claim C1, amended: if serializing the credential store to disk fails
during the save performed by a successful `complete_phone_auth`, the error
is caught and logged rather than propagated: the operation still reports
success, the in-memory credential map holds the new record, and the on-disk
document is left unchanged (the mutation is reported as a success even
though it is not durably applied). -/
theorem C1_theorem (st : SMState) (uid : String) (ad : AuthData)
    (password : Option String) (env : CompleteEnv)
    (h : lookupKey st.auth_data uid = some ad)
    (hs : env.signIn = SignInRes.ok) (hd : env.diskOk = false) :
    ((complete_phone_auth st uid password env).1).1 = true ∧
    ((complete_phone_auth st uid password env).2).disk = st.disk ∧
    lookupKey ((complete_phone_auth st uid password env).2).sessions_data uid
      = some (mkRecord ad.api_id ad.api_hash ad.session_path env.me) := by
  unfold complete_phone_auth
  simp [h, hs, completeSuccess, save_sessions_data, hd, lookupKey_upsert_self]

/-- Witness for C1_theorem at a concrete pending login with a failing
disk. -/
theorem C1_witness :
    lookupKey stPend.auth_data "1" = some adW ∧
    ((complete_phone_auth stPend "1" none envOkBadDiskW).1).1 = true ∧
    ((complete_phone_auth stPend "1" none envOkBadDiskW).2).disk
      = stPend.disk :=
  ⟨by decide,
   (C1_theorem stPend "1" adW none envOkBadDiskW (by decide) rfl rfl).1,
   (C1_theorem stPend "1" adW none envOkBadDiskW (by decide) rfl rfl).2.1⟩

/-- Claim C2: with a pending login in place, `complete_phone_auth` with a
rejected code returns the invalid-code outcome and leaves the state — in
particular the pending-login entry — untouched; the same holds for a generic
sign-in error, for the second-factor demand without a password, and for a
failed password sign-in; a subsequent call with the correct code for the
same owner then succeeds without any new `start_phone_auth`, and only that
success deletes the pending entry. -/
theorem C2_theorem (st : SMState) (uid : String) (ad : AuthData)
    (password : Option String) (env env2 : CompleteEnv)
    (h : lookupKey st.auth_data uid = some ad)
    (hw : env.signIn = SignInRes.invalidCode)
    (hr : env2.signIn = SignInRes.ok) :
    complete_phone_auth st uid password env
      = ((false, "Неверный код. Попробуйте снова."), st) ∧
    (∀ m, complete_phone_auth st uid password
        { env with signIn := SignInRes.otherErr m }
      = ((false, s!"Ошибка входа: {m}"), st)) ∧
    complete_phone_auth st uid none
        { env with signIn := SignInRes.needPassword }
      = ((false, "NEED_PASSWORD"), st) ∧
    (∀ pw m, complete_phone_auth st uid (some pw)
        { env with signIn := SignInRes.needPassword, pwErr := some m }
      = ((false, s!"Ошибка входа с паролем: {m}"), st)) ∧
    ((complete_phone_auth (complete_phone_auth st uid password env).2 uid
        password env2).1).1 = true ∧
    lookupKey ((complete_phone_auth (complete_phone_auth st uid password
        env).2 uid password env2).2).auth_data uid = none := by
  have h1 : complete_phone_auth st uid password env
      = ((false, "Неверный код. Попробуйте снова."), st) := by
    unfold complete_phone_auth
    simp [h, hw]
  refine ⟨h1, ?_, ?_, ?_, ?_, ?_⟩
  · intro m
    unfold complete_phone_auth
    simp [h]
  · unfold complete_phone_auth
    simp [h]
  · intro pw m
    unfold complete_phone_auth
    simp [h]
  · rw [h1]
    unfold complete_phone_auth
    simp [h, hr, completeSuccess]
  · rw [h1]
    unfold complete_phone_auth
    simp [h, hr, completeSuccess, save_sessions_data_auth,
          lookupKey_eraseKey_self]

/-- Witness for C2_theorem: a wrong code followed by the right one at a
concrete pending login. -/
theorem C2_witness :
    lookupKey stPend.auth_data "1" = some adW ∧
    ((complete_phone_auth (complete_phone_auth stPend "1" none
        envInvalidW).2 "1" none envOkW).1).1 = true :=
  ⟨by decide,
   (C2_theorem stPend "1" adW none envInvalidW envOkW (by decide) rfl
      rfl).2.2.2.2.1⟩

/-- Claim C3: with a live connection, `send_message_to_chats` runs the
per-target loop over the whole input, attempting every target in strict
input order (the initial attempts of the trace are exactly the input list)
and returning only after all of them; on the concrete `[A, B, C]` list where
B fails permanently, the result is two successes, one failure, and exactly
one error entry, mentioning B. -/
theorem C3_theorem (st : SMState) (uid : String)
    (targets : List (Int × SendOutcome)) (delay : Nat) (env : ConnEnv)
    (h : uid ∈ st.clients) :
    send_message_to_chats st uid targets delay env
      = Except.ok (((sendLoop targets delay).1, (sendLoop targets delay).2.1,
          (sendLoop targets delay).2.2.1), st, false,
          (sendLoop targets delay).2.2.2) ∧
    firstAttempts (sendLoop targets delay).2.2.2 = targets.map Prod.fst ∧
    sendLoop targetsW delay
      = (2, 1, ["Chat 2: boom"],
         [SendEvent.attempt 1, SendEvent.sleepDelay delay,
          SendEvent.attempt 2, SendEvent.attempt 3,
          SendEvent.sleepDelay delay]) := by
  refine ⟨?_, firstAttempts_sendLoop targets delay, ?_⟩
  · unfold send_message_to_chats
    simp [h]
  · rfl

/-- Witness for C3_theorem at a concrete live session. -/
theorem C3_witness :
    "1" ∈ stLive.clients ∧
    send_message_to_chats stLive "1" targetsW 1 connEnvW
      = Except.ok (((sendLoop targetsW 1).1, (sendLoop targetsW 1).2.1,
          (sendLoop targetsW 1).2.2.1), stLive, false,
          (sendLoop targetsW 1).2.2.2) :=
  ⟨by decide, (C3_theorem stLive "1" targetsW 1 connEnvW (by decide)).1⟩

/-- Claim C4: a target whose send raises a flood-control signal with wait
time `n` makes the loop record the flood notice, sleep exactly `n` seconds
and retry that same target exactly once — the trace contributed by the
target is precisely attempt, flood sleep, retry — counting the target as one
success if the retry succeeds and as one failure if it fails, and in either
case the remaining targets are processed unchanged. -/
theorem C4_theorem (c : Int) (n : Nat) (m : String)
    (rest : List (Int × SendOutcome)) (d : Nat) :
    sendLoop ((c, SendOutcome.flood n none) :: rest) d
      = ((sendLoop rest d).1 + 1, (sendLoop rest d).2.1,
         s!"Chat {c}: FloodWait {n} секунд" :: (sendLoop rest d).2.2.1,
         SendEvent.attempt c :: SendEvent.sleepFlood n ::
           SendEvent.retryAttempt c :: (sendLoop rest d).2.2.2) ∧
    sendLoop ((c, SendOutcome.flood n (some m)) :: rest) d
      = ((sendLoop rest d).1, (sendLoop rest d).2.1 + 1,
         s!"Chat {c}: FloodWait {n} секунд" :: s!"Chat {c}: {m}" ::
           (sendLoop rest d).2.2.1,
         SendEvent.attempt c :: SendEvent.sleepFlood n ::
           SendEvent.retryAttempt c :: (sendLoop rest d).2.2.2) :=
  ⟨rfl, rfl⟩

/-- Claim C5, counterexample: the claim says every reference counted as a
successful join has the archive operation attempted for its chat, including
joins that succeed via the invite-import fallback.  It is false: a reference
joined through the fallback increments the success count but is never added
to `joined_chat_ids`, so the success count can exceed the number of
archive-attempted chats. -/
theorem C5_counterexample :
    ¬ (∀ (refs : List (String × JoinEnv)) (archEnv : Int → Option String),
        (join_chats_core refs archEnv).1.1
          = (join_chats_core refs archEnv).2.length) := by
  intro h
  exact absurd (h refsInvite (fun _ => none)) (by decide)

/-- Claim C5, amended: after every reference in the input list has been
attempted (every reference is counted exactly once, so one failing reference
never aborts the batch), the archive step is attempted exactly for the chats
joined via the primary entity-resolution path; joins that succeed via the
invite-import fallback are counted as successes but are not archived.  On
the spec's concrete scenario — one unresolvable reference among three valid
ones — the result is three successes, one failure, one error entry, and all
three resolved chats are passed to the archive step. -/
theorem C5_theorem (refs : List (String × JoinEnv))
    (archEnv : Int → Option String) :
    (join_chats_core refs archEnv).2 = primaryIds refs ∧
    (join_chats_core refs archEnv).1.1 + (join_chats_core refs archEnv).1.2.1
      = refs.length ∧
    join_chats_core refsSpec (fun _ => none)
      = ((3, 1, ["@bad: not found"]), [1, 2, 3]) := by
  refine ⟨?_, ?_, by decide⟩
  · rw [join_chats_core_ids refs archEnv, joinLoop_ids refs]
  · rw [(join_chats_core_counts refs archEnv).1,
        (join_chats_core_counts refs archEnv).2]
    exact joinLoop_sum refs

/-- Claim C6: when the per-owner session file already authenticates with the
remote service (connect succeeds and the remote side reports the session
authorized), `start_phone_auth` reports success without ever invoking
`send_code_request`, persists the credential record for the owner both in
memory and on disk, and a second identical call is an idempotent no-op
success: it again reports success without a code request and leaves the
credential map exactly as the first call did. -/
theorem C6_theorem (st : SMState) (uid api_hash phone : String)
    (api_id : Nat) (env : StartEnv) (hc : env.connectErr = none)
    (ha : env.isAuthorized = true) (hd : env.diskOk = true) :
    (start_phone_auth st uid api_id api_hash phone env).1.success = true ∧
    (start_phone_auth st uid api_id api_hash phone env).1.codeRequested
      = false ∧
    lookupKey
        ((start_phone_auth st uid api_id api_hash phone env).2).sessions_data
        uid
      = some (mkRecord api_id api_hash (sessionPath uid) env.me) ∧
    ((start_phone_auth st uid api_id api_hash phone env).2).disk
      = some
        ((start_phone_auth st uid api_id api_hash phone env).2).sessions_data ∧
    (start_phone_auth (start_phone_auth st uid api_id api_hash phone env).2
        uid api_id api_hash phone env).1.success = true ∧
    (start_phone_auth (start_phone_auth st uid api_id api_hash phone env).2
        uid api_id api_hash phone env).1.codeRequested = false ∧
    ((start_phone_auth (start_phone_auth st uid api_id api_hash phone env).2
        uid api_id api_hash phone env).2).sessions_data
      = ((start_phone_auth st uid api_id api_hash phone env).2).sessions_data
    := by
  unfold start_phone_auth
  simp [hc, ha, hd, save_sessions_data, lookupKey_upsert_self,
        removeStr_idem, upsert_upsert]

/-- Witness for C6_theorem: a fresh manager and an already-authorized
session file. -/
theorem C6_witness :
    startEnvW.connectErr = none ∧ startEnvW.isAuthorized = true ∧
    startEnvW.diskOk = true ∧
    (start_phone_auth emptyState "1" 7 "h" "+7" startEnvW).1.success
      = true ∧
    (start_phone_auth emptyState "1" 7 "h" "+7" startEnvW).1.codeRequested
      = false :=
  ⟨rfl, rfl, rfl,
   (C6_theorem emptyState "1" "h" "+7" 7 startEnvW rfl rfl rfl).1,
   (C6_theorem emptyState "1" "h" "+7" 7 startEnvW rfl rfl rfl).2.1⟩

/-- Claim C7: for an owner with a live-handle/credential-consistent state
and no stored credential record, both connection-requiring entry points —
listing chats and broadcasting — fail immediately with the no-credential
outcome, leave the state unchanged, and never construct a client handle. -/
theorem C7_theorem (st : SMState) (uid : String) (penv : PoolEnv)
    (targets : List (Int × SendOutcome)) (delay : Nat) (cenv : ConnEnv)
    (hs : ClientsSubset st)
    (hn : lookupKey st.sessions_data uid = none) :
    get_chats st uid penv
      = ((false, "Сессия не найдена. Сначала добавьте сессию через /sessions",
          []), st, false) ∧
    send_message_to_chats st uid targets delay cenv
      = Except.ok ((0, targets.length,
          ["Сессия не найдена. Сначала добавьте сессию через /sessions"]),
          st, false, []) := by
  have hnc : uid ∉ st.clients := by
    intro hm
    have hsu := hs uid hm
    rw [hn] at hsu
    simp at hsu
  constructor
  · unfold get_chats
    simp [hnc, hn]
  · unfold send_message_to_chats
    simp [hnc, hn]

/-- Witness for C7_theorem at the fresh empty manager state. -/
theorem C7_witness :
    ClientsSubset emptyState ∧
    lookupKey emptyState.sessions_data "1" = none ∧
    get_chats emptyState "1" poolEnvW
      = ((false, "Сессия не найдена. Сначала добавьте сессию через /sessions",
          []), emptyState, false) :=
  ⟨clientsSubset_empty, rfl,
   (C7_theorem emptyState "1" poolEnvW [] 1 connEnvW clientsSubset_empty
      rfl).1⟩

/-- Core of C8: `removeCore` deletes the credential record, removes the
session file from disk, returns success, and leaves the client cache
untouched. -/
theorem removeCore_spec (st : SMState) (uid : String) (r : SessionRecord)
    (env : RemoveEnv) (hr : lookupKey st.sessions_data uid = some r)
    (hfo : env.removeFileOk = true) (hp : r.session_path ≠ "") :
    ((removeCore st uid env).1).1 = true ∧
    lookupKey ((removeCore st uid env).2).sessions_data uid = none ∧
    r.session_path ∉ ((removeCore st uid env).2).files ∧
    ((removeCore st uid env).2).clients = st.clients := by
  unfold removeCore
  simp only [hr]
  refine ⟨by simp, ?_, ?_, ?_⟩
  · simp [save_sessions_data_sessions, lookupKey_eraseKey_self]
  · simp only [save_sessions_data_files]
    by_cases hmem : r.session_path ∈ st.files
    · simp [hp, hmem, hfo, not_mem_removeStr_self]
    · simp [hp, hmem, hfo]
  · simp [save_sessions_data_clients]

/-- Claim C8: for an owner with a stored credential, `remove_session` (with
the disconnect and file deletion succeeding) reports success, after which
the owner's credential record is gone, the owner's session file is no longer
present on disk, the owner holds no live client, and a subsequent `get_chats`
for that owner fails with the no-credential outcome. -/
theorem C8_theorem (st : SMState) (uid : String) (r : SessionRecord)
    (env : RemoveEnv) (penv : PoolEnv)
    (hr : lookupKey st.sessions_data uid = some r)
    (hde : env.disconnectErr = none)
    (hfo : env.removeFileOk = true)
    (hp : r.session_path ≠ "") :
    ((remove_session st uid env).1).1 = true ∧
    lookupKey ((remove_session st uid env).2).sessions_data uid = none ∧
    r.session_path ∉ ((remove_session st uid env).2).files ∧
    uid ∉ ((remove_session st uid env).2).clients ∧
    get_chats (remove_session st uid env).2 uid penv
      = ((false, "Сессия не найдена. Сначала добавьте сессию через /sessions",
          []), (remove_session st uid env).2, false) := by
  by_cases hm : uid ∈ st.clients
  · have hrs : remove_session st uid env
        = removeCore { st with clients := removeStr uid st.clients } uid
            env := by
      unfold remove_session
      simp [hm, hde]
    have hcore := removeCore_spec
      { st with clients := removeStr uid st.clients } uid r env
      (by simpa using hr) hfo hp
    have hcl : uid ∉ ((remove_session st uid env).2).clients := by
      rw [hrs, hcore.2.2.2]
      exact not_mem_removeStr_self uid st.clients
    rw [hrs]
    rw [hrs] at hcl
    refine ⟨hcore.1, hcore.2.1, hcore.2.2.1, hcl, ?_⟩
    unfold get_chats
    simp [hcl, hcore.2.1]
  · have hrs : remove_session st uid env = removeCore st uid env := by
      unfold remove_session
      simp [hm]
    have hcore := removeCore_spec st uid r env hr hfo hp
    have hcl : uid ∉ ((removeCore st uid env).2).clients := by
      rw [hcore.2.2.2]
      exact hm
    rw [hrs]
    refine ⟨hcore.1, hcore.2.1, hcore.2.2.1, hcl, ?_⟩
    unfold get_chats
    simp [hcl, hcore.2.1]

/-- Witness for C8_theorem at a concrete state holding a live, persisted
session whose file is on disk. -/
theorem C8_witness :
    lookupKey stLive.sessions_data "1"
      = some (mkRecord 7 "h" (sessionPath "1") meW) ∧
    ((remove_session stLive "1" remEnvW).1).1 = true ∧
    lookupKey ((remove_session stLive "1" remEnvW).2).sessions_data "1"
      = none ∧
    (mkRecord 7 "h" (sessionPath "1") meW).session_path
      ∉ ((remove_session stLive "1" remEnvW).2).files :=
  ⟨by decide,
   (C8_theorem stLive "1" (mkRecord 7 "h" (sessionPath "1") meW) remEnvW
      poolEnvW (by decide) rfl rfl (by decide)).1,
   (C8_theorem stLive "1" (mkRecord 7 "h" (sessionPath "1") meW) remEnvW
      poolEnvW (by decide) rfl rfl (by decide)).2.1,
   (C8_theorem stLive "1" (mkRecord 7 "h" (sessionPath "1") meW) remEnvW
      poolEnvW (by decide) rfl rfl (by decide)).2.2.1⟩

/-- Claim C9: whenever `send_message_to_chats` reaches the per-target loop —
the owner has a cached client, or reconnection succeeds and is authorized —
the returned success count plus failure count equals the number of targets:
every target is counted exactly once. -/
theorem C9_theorem (st : SMState) (uid : String)
    (targets : List (Int × SendOutcome)) (delay : Nat) (env : ConnEnv)
    (h : uid ∈ st.clients ∨
      ((lookupKey st.sessions_data uid).isSome = true ∧
        env.connectErr = none ∧ env.isAuthorized = true)) :
    ∃ s f es st2 b tr,
      send_message_to_chats st uid targets delay env
        = Except.ok ((s, f, es), st2, b, tr) ∧ s + f = targets.length := by
  by_cases hm : uid ∈ st.clients
  · refine ⟨(sendLoop targets delay).1, (sendLoop targets delay).2.1,
      (sendLoop targets delay).2.2.1, st, false,
      (sendLoop targets delay).2.2.2, ?_, sendLoop_sum targets delay⟩
    unfold send_message_to_chats
    simp [hm]
  · rcases h with h | ⟨hsome, hce, hia⟩
    · exact absurd h hm
    · obtain ⟨r, hr⟩ := Option.isSome_iff_exists.mp hsome
      refine ⟨(sendLoop targets delay).1, (sendLoop targets delay).2.1,
        (sendLoop targets delay).2.2.1,
        { st with clients := uid :: st.clients }, true,
        (sendLoop targets delay).2.2.2, ?_, sendLoop_sum targets delay⟩
      unfold send_message_to_chats
      simp [hm, hr, hce, hia]

/-- Witness for C9_theorem at a concrete live session. -/
theorem C9_witness :
    ("1" ∈ stLive.clients ∨
      ((lookupKey stLive.sessions_data "1").isSome = true ∧
        connEnvW.connectErr = none ∧ connEnvW.isAuthorized = true)) ∧
    ∃ s f es st2 b tr,
      send_message_to_chats stLive "1" targetsW 1 connEnvW
        = Except.ok ((s, f, es), st2, b, tr) ∧ s + f = targetsW.length :=
  ⟨Or.inl (by decide),
   C9_theorem stLive "1" targetsW 1 connEnvW (Or.inl (by decide))⟩

/-- Claim C10: when a target triggers a flood-control cooldown and the
single retry then succeeds, the flood-wait notice mentioning that target is
still prepended to the returned error list even though the target is counted
as a success. -/
theorem C10_theorem (c : Int) (n : Nat)
    (rest : List (Int × SendOutcome)) (d : Nat) :
    (sendLoop ((c, SendOutcome.flood n none) :: rest) d).1
      = (sendLoop rest d).1 + 1 ∧
    (sendLoop ((c, SendOutcome.flood n none) :: rest) d).2.2.1
      = s!"Chat {c}: FloodWait {n} секунд" :: (sendLoop rest d).2.2.1 :=
  ⟨rfl, rfl⟩

end SM
